import Mathlib

/-!
Verification of the retrigo retrying HTTP client (client.go) against its
natural-language specification.  The Go code is shallowly embedded: Go
pointers that may be nil become `Option`, Go `error` values become `Option
GoError` (carrying the message), machine `int`/`int64` become `Int`, and a
nil-pointer dereference or out-of-range slice index becomes an explicit
`panic` constructor of the result type.  External collaborators (net/url,
net/http transport, the heap backing *bytes.Buffer) are either parameters
of the embedded functions or explicit oracles.
-/

namespace Retrigo

/-- A Go `error` value, represented by its message text. -/
abbrev GoError := String

/-- A parsed `*url.URL`, rendered as the string it prints as. -/
abbrev URL := String

/-- The part of `*http.Response` that client.go inspects. -/
structure Response where
  StatusCode : Int
deriving Repr, DecidableEq

/-- Result of a Go function returning `(bool, error)` that may also panic
(nil-pointer dereference).  Used for `CheckForRetry` policies. -/
inductive PolicyResult where
  | panic
  | ok (shouldRetry : Bool) (err : Option GoError)
deriving Repr, DecidableEq

/-- Embedding of `DefaultRetryPolicy` (client.go lines 171-184).  The context
is represented by the value of `ctx.Err()` (`none` = not cancelled).  The
response pointer `r` is `Option Response`; the Go code reads `r.StatusCode`
without a nil check, so `r = none` with `err = none` is a nil-pointer
dereference, embedded as `.panic`. -/
def DefaultRetryPolicy (ctxErr : Option GoError) (r : Option Response)
    (err : Option GoError) : PolicyResult :=
  match ctxErr with
  | some e => .ok false (some e)
  | none =>
    match err with
    | some e => .ok true (some e)
    | none =>
      match r with
      | none => .panic
      | some resp =>
        if resp.StatusCode = 0 ∨ (500 ≤ resp.StatusCode ∧ resp.StatusCode ≠ 501) then
          .ok true none
        else
          .ok false none

/-- The retry decision exactly as claim C1 words it for a non-nil response:
retryable when the status is 0 or lies in [500,599] excluding 501.  This
definition follows the specification text, to be compared with
`DefaultRetryPolicy`, which was translated from the source. -/
def claimRetryPolicyC1 (ctxErr : Option GoError) (r : Response)
    (err : Option GoError) : PolicyResult :=
  match ctxErr with
  | some e => .ok false (some e)
  | none =>
    match err with
    | some e => .ok true (some e)
    | none =>
      if r.StatusCode = 0 ∨ (500 ≤ r.StatusCode ∧ r.StatusCode ≤ 599 ∧ r.StatusCode ≠ 501) then
        .ok true none
      else
        .ok false none

/-- Claim C1 with the status condition amended to match the source: the
retryable band has no upper bound at 599 — any status at least 500 other
than 501 is retried. -/
def amendedRetryPolicyC1 (ctxErr : Option GoError) (r : Response)
    (err : Option GoError) : PolicyResult :=
  match ctxErr with
  | some e => .ok false (some e)
  | none =>
    match err with
    | some e => .ok true (some e)
    | none =>
      if r.StatusCode = 0 ∨ (500 ≤ r.StatusCode ∧ r.StatusCode ≠ 501) then
        .ok true none
      else
        .ok false none

/-- Embedding of `DefaultScheduler` (client.go lines 196-208): wrap the
cursor to 0 when it is at least the list length, then index.  A Go slice
index out of range (negative cursor, or any cursor on an empty list) is a
runtime panic, embedded as `.panic`. -/
inductive SchedResult where
  | panic
  | ok (server : String) (next : Int)
deriving Repr, DecidableEq

def DefaultScheduler (servers : List String) (j : Int) : SchedResult :=
  let j' := if (servers.length : Int) ≤ j then 0 else j
  if h : 0 ≤ j' ∧ j'.toNat < servers.length then
    .ok (servers.get ⟨j'.toNat, h.2⟩) (j' + 1)
  else
    .panic

/-- The heap backing `*bytes.Buffer` values: a map from buffer address to the
byte contents the buffer currently holds. -/
abbrev Heap := Nat → List UInt8

/-- An `io.Reader` produced by a body factory, abstracted to the bytes it
delivers when drained plus its `LenReader` capability (`Len()`), when the
concrete reader has one. -/
structure ReaderM where
  contents : List UInt8
  len : Option Int

/-- The body argument of `NewRequest`/`FromRequest`, one constructor per arm
of the Go type switch in `getBodyReaderAndContentLength` (client.go lines
224-315).  Readers are abstracted to the bytes they deliver; a `*bytes.Buffer`
is a heap address (the Go value is a pointer); the factory-function arms are
indexed by call number so a call may fail; `unsupportedB` carries the Go type
name reported by the default arm. -/
inductive RawBody where
  | readerFuncB (f : Nat → Except GoError ReaderM)
  | byteSliceB (buf : List UInt8)
  | bufferB (addr : Nat)
  | bytesReaderB (read : Except GoError (List UInt8))
  | readSeekerB (contents : List UInt8) (seekErr : Nat → Option GoError) (len : Option Int)
  | readerB (read : Except GoError (List UInt8))
  | unsupportedB (tname : String)

/-- A materialized body producer: invocation number and current heap (the
buffer arm reads the heap at call time) to the bytes the produced reader
delivers, or the error the producer call returns. -/
abbrev BodyProducer := Nat → Heap → Except GoError (List UInt8)

/-- Embedding of `getBodyReaderAndContentLength` (client.go lines 224-315),
given the heap `h` at materialization time.  Returns the body producer (none
for a nil body) and the computed content length.  Note the `bufferB` arm: the
Go closure captures the pointer (`buf := body`) and calls `buf.Bytes()` on
every invocation, so the producer reads the heap passed at call time, while
`contentLength` is `buf.Len()` read once at materialization time. -/
def getBodyReaderAndContentLength (h : Heap) (rawBody : Option RawBody) :
    Except GoError (Option BodyProducer × Int) :=
  match rawBody with
  | none => .ok (none, 0)
  | some (.readerFuncB f) =>
    match f 0 with
    | .error e => .error e
    | .ok tmp => .ok (some (fun i _ => (f i).map ReaderM.contents), tmp.len.getD 0)
  | some (.byteSliceB buf) =>
    .ok (some (fun _ _ => .ok buf), (buf.length : Int))
  | some (.bufferB a) =>
    .ok (some (fun _ hNow => .ok (hNow a)), ((h a).length : Int))
  | some (.bytesReaderB read) =>
    match read with
    | .error e => .error e
    | .ok buf => .ok (some (fun _ _ => .ok buf), (buf.length : Int))
  | some (.readSeekerB contents seekErr len) =>
    .ok (some (fun i _ =>
      match seekErr i with
      | some e => .error e
      | none => .ok contents), len.getD 0)
  | some (.readerB read) =>
    match read with
    | .error e => .error e
    | .ok buf => .ok (some (fun _ _ => .ok buf), (buf.length : Int))
  | some (.unsupportedB tname) =>
    .error ("cannot handle type " ++ tname)

/-- The bytes delivered by the body producer materialized from `b` under heap
`h`, when invoked as call number `i` with the heap then being `hNow`. -/
def producedBody (h : Heap) (b : Option RawBody) (i : Nat) (hNow : Heap) :
    Except GoError (List UInt8) :=
  match getBodyReaderAndContentLength h b with
  | .ok (some pr, _) => pr i hNow
  | _ => .error "no body producer"

/-- A heap with a single buffer at address 0 holding "hi". -/
def bufHeap0 : Heap := fun _ => [104, 105]

/-- The same buffer after the caller appended a byte ("hi!"). -/
def bufHeap1 : Heap := fun _ => [104, 105, 33]

/-- The mutable per-attempt state of a wrapped `Request` (client.go lines
94-98 plus the embedded `*http.Request` fields that `Do` touches).  `URL` is
the underlying request URL (nil-able), `urls` the target list, `body` the
materialized producer, `ctxErr` the value of `req.Context().Err()`. -/
structure RequestM where
  Method : String
  urls : List String
  URL : Option URL
  body : Option BodyProducer
  ContentLength : Int
  ctxErr : Option GoError

/-- The fields of an externally built `*http.Request` that `FromRequest`
consumes. -/
structure HttpRequestM where
  Method : String
  URL : Option URL
  Body : Option RawBody
  ContentLength : Int
  ctxErr : Option GoError

/-- Model of the collaborator `strings.Split(s, " ")` from the Go standard
library: split around every single space, keeping empty elements, so the
result is always non-empty.  Written as structural recursion over the
string's characters so that concrete instances evaluate. -/
def splitOnSpaceAux : List Char → List Char → List String
  | [], acc => [String.mk acc.reverse]
  | c :: cs, acc =>
    if c = ' ' then String.mk acc.reverse :: splitOnSpaceAux cs []
    else splitOnSpaceAux cs (c :: acc)

def splitOnSpace (s : String) : List String := splitOnSpaceAux s.data []

/-- The URL-validation loop of `NewRequest` (client.go lines 337-342):
returns the first parse error among the split targets, if any. -/
def validateURLs (urlParse : String → Except GoError URL) : List String → Option GoError
  | [] => none
  | t :: ts =>
    match urlParse t with
    | .error e => some e
    | .ok _ => validateURLs urlParse ts

/-- Embedding of `NewRequest` (client.go lines 329-350).  `urlParse` models
the collaborator `net/url.Parse`; `httpNewRequest` models `http.NewRequest`
applied to the method and the first target (it can fail, e.g. on an invalid
method).  The target string is split on single spaces and every element must
parse, or construction fails with that parse error. -/
def NewRequest (urlParse : String → Except GoError URL)
    (httpNewRequest : String → String → Except GoError Unit)
    (h : Heap) (method durl : String) (rawBody : Option RawBody) :
    Except GoError RequestM :=
  match getBodyReaderAndContentLength h rawBody with
  | .error e => .error e
  | .ok (bodyReader, contentLength) =>
    let dest := splitOnSpace durl
    match validateURLs urlParse dest with
    | some e => .error e
    | none =>
      match httpNewRequest method (dest.headD "") with
      | .error e => .error e
      | .ok _ =>
        .ok { Method := method, urls := dest,
              URL := (urlParse (dest.headD "")).toOption,
              body := bodyReader, ContentLength := contentLength, ctxErr := none }

/-- Embedding of `FromRequest` (client.go lines 318-326): materialize the
existing request's body, split the target string, and wrap — note that no
element of the split is URL-validated. -/
def FromRequest (h : Heap) (r : HttpRequestM) (durl : String) :
    Except GoError RequestM :=
  match getBodyReaderAndContentLength h r.Body with
  | .error e => .error e
  | .ok (bodyReader, _) =>
    let dest := splitOnSpace durl
    .ok { Method := r.Method, urls := dest, URL := r.URL,
          body := bodyReader, ContentLength := r.ContentLength, ctxErr := r.ctxErr }

/-- Model of the collaborator `net/url.Parse` on the concrete target strings
used in this development: per the repository's tests, "://foo" (and the
analogous "://bad") fails to parse with a missing-scheme error, while the
ordinary URLs used here parse successfully. -/
def urlParseModel (s : String) : Except GoError URL :=
  if s = "://foo" ∨ s = "://bad" then .error "missing protocol scheme" else .ok s

/-- A heap with no live buffers. -/
def emptyHeap : Heap := fun _ => []

/-- The client configuration (client.go lines 68-83).  `T` is the type of the
underlying `*http.Client` value (its transport behaviour lives in the
`Oracle`); `L` is the type of the `Logger` field.  Durations are `Int`
nanosecond counts. -/
structure ClientModel (T L : Type) where
  HTTPClient : Option T
  RetryWaitMin : Int
  RetryWaitMax : Int
  RetryMax : Int
  CheckForRetry : Option GoError → Option Response → Option GoError → PolicyResult
  Backoff : Int → Int → Nat → Option Response → Int
  Scheduler : List String → Int → SchedResult
  Logger : L

/-- The external world during one `Do` call: for each attempt number, the
underlying transport's result on the request URL (`c.HTTPClient.Do`), and the
result of the limited body drain (`none` = drained without error). -/
structure Oracle where
  transport : Nat → Option URL → Option Response × Option GoError
  drainErr : Nat → Option GoError

/-- `FirstTarget` (client.go line 59): the initial scheduler cursor. -/
def FirstTarget : Int := 0

/-- Embedding of `parseURL` (client.go lines 421-424): the parse error is
discarded, so a failing parse yields the nil URL. -/
def parseURL (urlParse : String → Except GoError URL) (dest : String) : Option URL :=
  (urlParse dest).toOption

/-- How `fmt` renders `req.URL`: a nil `*url.URL` prints as "<nil>". -/
def urlString : Option URL → String
  | none => "<nil>"
  | some u => u

/-- The exhaustion error text (client.go line 492):
`fmt.Errorf("%s %s giving up after %d attemps", req.Method, req.URL, c.RetryMax+1)`. -/
def givingUpMsg (method : String) (u : Option URL) (n : Int) : String :=
  method ++ " " ++ urlString u ++ " " ++ ("giving up" ++ (" after " ++ toString n ++ " attemps"))

/-- One entry of the observable log trace: the Logger callback's severity
tag, message, and error argument. -/
structure LogCall where
  mtype : String
  msg : String
  err : Option GoError
deriving Repr, DecidableEq

/-- The ERROR log emitted when the transport fails (client.go lines 456-460). -/
def transportFailLog (method : String) (u : Option URL) : Option GoError → List LogCall
  | some e => [⟨"ERROR", method ++ " " ++ urlString u ++ " request failed: ", some e⟩]
  | none => []

/-- The log emitted by `drainBody` (client.go lines 353-361) when the limited
copy fails; draining happens only when the transport returned no error. -/
def drainLogOf (o : Oracle) (i : Nat) : Option GoError → List LogCall
  | none =>
    match o.drainErr i with
    | some e => [⟨"ERROR", "error reading response body", some e⟩]
    | none => []
  | some _ => []

/-- The DEBUG log announcing a retry (client.go lines 481-488).  `code` is
the local variable set only when the response is non-nil; the wait duration
is rendered as its nanosecond count. -/
def retryDebugLog (method : String) (u : Option URL) (r : Option Response)
    (wait remain : Int) (terr : Option GoError) : LogCall :=
  let code : Int := match r with | some resp => resp.StatusCode | none => 0
  let desc := method ++ " " ++ urlString u ++
    (if 0 < code then " status: " ++ toString code else "")
  ⟨"DEBUG", desc ++ ": retrying in " ++ toString wait ++ " (" ++ toString remain ++ " left): ", terr⟩

/-- The body-rewind step at the top of each loop iteration (client.go lines
439-450): invoke the producer if present and surface its error. -/
def bodyStepErr (h : Heap) (req : RequestM) (i : Nat) : Option GoError :=
  match req.body with
  | none => none
  | some f =>
    match f i h with
    | .error e => some e
    | .ok _ => none

/-- The outcome of `Do`: either a Go runtime panic, or the returned
`(*http.Response, error)` pair. -/
inductive DoOut where
  | panic
  | ret (resp : Option Response) (err : Option GoError)
deriving Repr, DecidableEq

/-- One attempt as recorded by the loop: the scheduler's selection, the URL
the request was attempted with, the transport result, and the backoff wait
slept after the attempt (`none` when the loop exited at this attempt). -/
structure AttemptRec where
  dest : String
  url : Option URL
  resp : Option Response
  terr : Option GoError
  waited : Option Int
deriving Repr, DecidableEq

/-- Result of running the loop: outcome, final request state (its URL is
mutated every attempt), the attempt trace, and the Logger calls. -/
structure LoopRes where
  out : DoOut
  req : RequestM
  trace : List AttemptRec
  log : List LogCall

/-- Embedding of the `for` loop of `Client.Do` (client.go lines 435-492),
by recursion on the remaining iteration count `fuel` (the loop runs for
`i = 0 .. RetryMax`, so `Do` enters with `fuel = RetryMax + 1` and the
invariant `i + fuel = RetryMax + 1`); `fuel = 0` is the normal loop exit,
which falls through to the giving-up error.  `j` is the scheduler cursor.
Each iteration: rewind the body (its error aborts with the nil `resp` local),
select a target, overwrite `req.URL` with the discarded-error parse, run the
transport, log a transport failure, evaluate the retry policy, and on retry
drain the response (a nil-pointer dereference when both transport results
are nil), break when no attempts remain, else back off and recur. -/
def doLoop (up : String → Except GoError URL) (c : ClientModel T L) (o : Oracle)
    (h : Heap) : RequestM → Nat → Int → Nat → LoopRes
  | req, _i, _j, 0 =>
    ⟨.ret none (some (givingUpMsg req.Method req.URL (c.RetryMax + 1))), req, [], []⟩
  | req, i, j, fuel + 1 =>
    match bodyStepErr h req i with
    | some e => ⟨.ret none (some e), req, [], []⟩
    | none =>
      match c.Scheduler req.urls j with
      | .panic => ⟨.panic, req, [], []⟩
      | .ok dest j' =>
        let req' := { req with URL := parseURL up dest }
        let tres := o.transport i req'.URL
        let r := tres.1
        let terr := tres.2
        let errLog := transportFailLog req'.Method req'.URL terr
        match c.CheckForRetry req'.ctxErr r terr with
        | .panic => ⟨.panic, req', [⟨dest, req'.URL, r, terr, none⟩], errLog⟩
        | .ok checkOK checkErr =>
          if checkOK = false then
            ⟨.ret r (match checkErr with | some e => some e | none => terr), req',
              [⟨dest, req'.URL, r, terr, none⟩], errLog⟩
          else
            if terr = none ∧ r = none then
              ⟨.panic, req', [⟨dest, req'.URL, r, terr, none⟩], errLog⟩
            else
              let drainL := drainLogOf o i terr
              let remain : Int := c.RetryMax - (i : Int)
              if remain = 0 then
                ⟨.ret none (some (givingUpMsg req'.Method req'.URL (c.RetryMax + 1))), req',
                  [⟨dest, req'.URL, r, terr, none⟩], errLog ++ drainL⟩
              else
                let wait := c.Backoff c.RetryWaitMin c.RetryWaitMax i r
                let rest := doLoop up c o h req' (i + 1) j' fuel
                ⟨rest.out, rest.req, ⟨dest, req'.URL, r, terr, some wait⟩ :: rest.trace,
                  errLog ++ drainL ++ [retryDebugLog req'.Method req'.URL r wait remain terr] ++ rest.log⟩

/-- Embedding of `Client.Do` (client.go lines 427-493): populate a default
`HTTPClient` when the field is nil (`defT` is the `cleanhttp` default pooled
client), then run the loop from attempt 0 and cursor `FirstTarget` with
`RetryMax + 1` iterations available.  Returns the loop result together with
the client as `Do` leaves it. -/
def Do (up : String → Except GoError URL) (defT : T) (c : ClientModel T L)
    (o : Oracle) (h : Heap) (req : RequestM) : LoopRes × ClientModel T L :=
  let c := if c.HTTPClient.isNone then { c with HTTPClient := some defT } else c
  (doLoop up c o h req 0 FirstTarget (c.RetryMax + 1).toNat, c)

/-- The scheduler is well-behaved on the request's target list: from any
non-negative cursor it returns a selection and a non-negative next cursor
(`DefaultScheduler` on a non-empty list is an instance). -/
def SchedulerTotalFrom (c : ClientModel T L) (urls : List String) : Prop :=
  ∀ j : Int, 0 ≤ j → ∃ d j', c.Scheduler urls j = .ok d j' ∧ 0 ≤ j'

/-- The retry policy asks to retry on every input it can be shown. -/
def AlwaysRetry (c : ClientModel T L) (ctxErr : Option GoError) : Prop :=
  ∀ r e, ∃ oe, c.CheckForRetry ctxErr r e = .ok true oe

/-- The transport never returns a nil response together with a nil error
(true of `net/http`). -/
def TransportSane (o : Oracle) : Prop :=
  ∀ i u, (o.transport i u).2 = none → (o.transport i u).1 ≠ none

/-- The identity URL-parse model: every target string parses to itself. -/
def upOK : String → Except GoError URL := fun s => .ok s

/-- Concrete client for the C2 witness: RetryMax 2, a policy that always
retries, a constant scheduler. -/
def c2client : ClientModel Unit Unit :=
  { HTTPClient := some (), RetryWaitMin := 1, RetryWaitMax := 2, RetryMax := 2,
    CheckForRetry := fun _ _ _ => .ok true none, Backoff := fun _ _ _ _ => 7,
    Scheduler := fun _ _ => .ok "http://a" 1, Logger := () }

/-- Concrete oracle for the C2 witness: the transport always answers 500. -/
def c2oracle : Oracle := ⟨fun _ _ => (some ⟨500⟩, none), fun _ => none⟩

/-- Concrete request for the C2 and C3 witnesses. -/
def wreq : RequestM :=
  { Method := "GET", urls := ["http://a"], URL := some "http://a",
    body := none, ContentLength := 0, ctxErr := none }

/-- Concrete client for the C3 witness: generous retry budget but a policy
that always stops. -/
def c3client : ClientModel Unit Unit :=
  { HTTPClient := some (), RetryWaitMin := 1, RetryWaitMax := 2, RetryMax := 5,
    CheckForRetry := fun _ _ _ => .ok false none, Backoff := fun _ _ _ _ => 9,
    Scheduler := fun _ _ => .ok "http://a" 1, Logger := () }

/-- Concrete oracle for the C3 witness: the transport answers 404. -/
def c3oracle : Oracle := ⟨fun _ _ => (some ⟨404⟩, none), fun _ => none⟩

/-- Client for the C6 counterexample: default policy and scheduler, one
retry. -/
def c6client : ClientModel Unit Unit :=
  { HTTPClient := some (), RetryWaitMin := 1, RetryWaitMax := 2, RetryMax := 1,
    CheckForRetry := DefaultRetryPolicy, Backoff := fun _ _ _ _ => 3,
    Scheduler := DefaultScheduler, Logger := () }

/-- Oracle for the C6 counterexample: the transport — like `net/http` —
fails on a nil request URL, and succeeds otherwise. -/
def c6oracle : Oracle :=
  ⟨fun _ u =>
    match u with
    | none => (none, some "http: nil Request.URL")
    | some _ => (some ⟨200⟩, none),
   fun _ => none⟩

/-- Request for the C6 counterexample: its only target fails to parse, and
its current URL (the would-be stale fallback) is `http://old`. -/
def c6req : RequestM :=
  { Method := "GET", urls := ["://bad"], URL := some "http://old",
    body := none, ContentLength := 0, ctxErr := none }

/-- Client for the C8 run: default policy and scheduler, RetryMax 4, so
five attempts against an always-500 transport. -/
def c8client : ClientModel Unit Unit :=
  { HTTPClient := some (), RetryWaitMin := 1, RetryWaitMax := 2, RetryMax := 4,
    CheckForRetry := DefaultRetryPolicy, Backoff := fun _ _ _ _ => 0,
    Scheduler := DefaultScheduler, Logger := () }

/-- Oracle for the C8 run: the transport always answers 500. -/
def c8oracle : Oracle := ⟨fun _ _ => (some ⟨500⟩, none), fun _ => none⟩

/-- Request for the C8 run: targets parsed from "http://A http://B http://C". -/
def c8req : RequestM :=
  { Method := "GET", urls := splitOnSpace "http://A http://B http://C",
    URL := some "http://A", body := none, ContentLength := 0, ctxErr := none }

/-- Client for the C9 counterexample: a nil HTTPClient. -/
def c9client : ClientModel Nat Nat :=
  { HTTPClient := none, RetryWaitMin := 1, RetryWaitMax := 2, RetryMax := 0,
    CheckForRetry := fun _ _ _ => .ok false none, Backoff := fun _ _ _ _ => 0,
    Scheduler := fun _ _ => .ok "http://a" 1, Logger := 5 }

/-- Oracle for the C9 runs: the transport answers 200. -/
def c9oracle : Oracle := ⟨fun _ _ => (some ⟨200⟩, none), fun _ => none⟩

/-- Client for the C9 witness: a populated HTTPClient. -/
def c9bclient : ClientModel Nat Nat := { c9client with HTTPClient := some 3 }

/-! ## Theorems -/

/-- Claim C1 as stated is false on the code: for a response with status 600
(no transport error, live context) `DefaultRetryPolicy` retries, while the
claim's band [500,599] demands (false, nil). -/
theorem C1_counterexample :
    DefaultRetryPolicy none (some ⟨600⟩) none = .ok true none ∧
    claimRetryPolicyC1 none ⟨600⟩ none = .ok false none ∧
    (PolicyResult.ok true none) ≠ (PolicyResult.ok false none) := by
  refine ⟨by decide, by decide, by decide⟩

/-- Claim C1 (amended): cancellation always wins regardless of response and
error; a transport error is always retried; and for every non-nil response
the decision is exactly the amended band — status 0 or at least 500
excluding 501 retries, anything else (including 501) stops. -/
theorem C1_theorem :
    (∀ (ce : GoError) (r : Option Response) (e : Option GoError),
      DefaultRetryPolicy (some ce) r e = .ok false (some ce)) ∧
    (∀ (r : Option Response) (e : GoError),
      DefaultRetryPolicy none r (some e) = .ok true (some e)) ∧
    (∀ (ctxErr err : Option GoError) (resp : Response),
      DefaultRetryPolicy ctxErr (some resp) err = amendedRetryPolicyC1 ctxErr resp err) := by
  refine ⟨fun ce r e => rfl, fun r e => rfl, fun ctxErr err resp => ?_⟩
  cases ctxErr <;> cases err <;> rfl

/-- Claim C10: `DefaultRetryPolicy` dereferences the response without a nil
check — with a live context, nil response and nil error it panics; and it
never panics when the response is non-nil whenever the error is nil. -/
theorem C10_theorem :
    DefaultRetryPolicy none none none = .panic ∧
    (∀ (ce : Option GoError) (r : Option Response) (e : Option GoError),
      (e = none → r.isSome) → DefaultRetryPolicy ce r e ≠ .panic) := by
  refine ⟨rfl, fun ce r e hre => ?_⟩
  cases ce with
  | some c => simp [DefaultRetryPolicy]
  | none =>
    cases e with
    | some e0 => simp [DefaultRetryPolicy]
    | none =>
      cases r with
      | none => simp at hre
      | some resp =>
        simp only [DefaultRetryPolicy]
        split <;> simp

/-- Witness for C10 at concrete inputs: the policy panics on (live context,
nil response, nil error) and does not panic on a concrete 503 response. -/
theorem C10_witness :
    DefaultRetryPolicy none none none = .panic ∧
    DefaultRetryPolicy none (some ⟨503⟩) none ≠ .panic :=
  ⟨C10_theorem.1, C10_theorem.2 none (some ⟨503⟩) none (fun _ => rfl)⟩

/-- Claim C8 as stated quantifies over every cursor value; at the concrete
cursor -1 (a Go `int`) the code performs `servers[-1]` and panics instead of
returning an element. -/
theorem C8_counterexample :
    DefaultScheduler ["http://A"] (-1) = .panic := by
  decide

/-- Claim C5 as stated is false on the code: after mutating the original
buffer, an invocation of the producer yields the buffer's current bytes
[104,105,33], not the [104,105] it held at materialization time — the Go
closure reads `buf.Bytes()` through the captured pointer on every call. -/
theorem C5_counterexample :
    producedBody bufHeap0 (some (.bufferB 0)) 1 bufHeap1 = .ok [104, 105, 33] ∧
    bufHeap0 0 = [104, 105] ∧
    (Except.ok [104, 105, 33] : Except GoError (List UInt8)) ≠ .ok [104, 105] := by
  refine ⟨rfl, rfl, by simp⟩

/-- Claim C5 (amended): for a `*bytes.Buffer` body the producer reads the
buffer's contents at invocation time — external mutation after construction
is visible to subsequent invocations — while only the content length is
captured at materialization time. -/
theorem C5_theorem (h hNow : Heap) (a i : Nat) :
    producedBody h (some (.bufferB a)) i hNow = .ok (hNow a) ∧
    (getBodyReaderAndContentLength h (some (.bufferB a))).map Prod.snd =
      .ok ((h a).length : Int) := by
  exact ⟨rfl, rfl⟩

/-- Claim C4 as stated is false on the code: "://foo" fails to parse as a
URL, yet `FromRequest` with target string "://foo" succeeds — `FromRequest`
never validates the split elements (client.go lines 318-326 contain no parse
loop). -/
theorem C4_counterexample :
    urlParseModel "://foo" = .error "missing protocol scheme" ∧
    (FromRequest emptyHeap
      { Method := "GET", URL := some "http://foo", Body := none,
        ContentLength := 0, ctxErr := none } "://foo").isOk = true := by
  exact ⟨rfl, rfl⟩

/-- Claim C4 (amended): `NewRequest` fails whenever any element of the target
string split on spaces fails to parse, and succeeds when every element
parses, the body materializes, and the underlying `http.NewRequest` accepts
the method and first target; `FromRequest`, by contrast, performs no URL
validation and succeeds whenever the body materializes. -/
theorem C4_theorem :
    (∀ (urlParse : String → Except GoError URL)
       (httpNewRequest : String → String → Except GoError Unit)
       (h : Heap) (method durl : String) (rawBody : Option RawBody) (e : GoError),
      validateURLs urlParse (splitOnSpace durl) = some e →
      ∃ e', NewRequest urlParse httpNewRequest h method durl rawBody = .error e') ∧
    (∀ (urlParse : String → Except GoError URL)
       (httpNewRequest : String → String → Except GoError Unit)
       (h : Heap) (method durl : String) (rawBody : Option RawBody),
      validateURLs urlParse (splitOnSpace durl) = none →
      (getBodyReaderAndContentLength h rawBody).isOk = true →
      httpNewRequest method ((splitOnSpace durl).headD "") = .ok () →
      (NewRequest urlParse httpNewRequest h method durl rawBody).isOk = true) ∧
    (∀ (h : Heap) (r : HttpRequestM) (durl : String),
      (getBodyReaderAndContentLength h r.Body).isOk = true →
      (FromRequest h r durl).isOk = true) := by
  refine ⟨?_, ?_, ?_⟩
  · intro urlParse hnr h method durl rawBody e hval
    unfold NewRequest
    cases hb : getBodyReaderAndContentLength h rawBody with
    | error e0 => exact ⟨e0, rfl⟩
    | ok pr =>
      refine ⟨e, ?_⟩
      obtain ⟨bodyReader, contentLength⟩ := pr
      simp [hval]
  · intro urlParse hnr h method durl rawBody hval hbody hnew
    unfold NewRequest
    cases hb : getBodyReaderAndContentLength h rawBody with
    | error e0 => rw [hb] at hbody; simp [Except.isOk, Except.toBool] at hbody
    | ok pr =>
      obtain ⟨bodyReader, contentLength⟩ := pr
      simp only [hval, hnew, Except.isOk, Except.toBool]
  · intro h r durl hbody
    unfold FromRequest
    cases hb : getBodyReaderAndContentLength h r.Body with
    | error e0 => rw [hb] at hbody; simp [Except.isOk, Except.toBool] at hbody
    | ok pr =>
      obtain ⟨bodyReader, contentLength⟩ := pr
      simp [Except.isOk, Except.toBool]

/-- Witness for C4 at concrete inputs: "://foo http://ok" has a failing
element so `NewRequest` fails; "http://a http://b" is all-valid so
`NewRequest` succeeds; and `FromRequest` succeeds with a nil body. -/
theorem C4_witness :
    (∃ e', NewRequest urlParseModel (fun _ _ => .ok ()) emptyHeap "GET"
      "://foo http://ok" none = .error e') ∧
    (NewRequest urlParseModel (fun _ _ => .ok ()) emptyHeap "GET"
      "http://a http://b" none).isOk = true ∧
    (FromRequest emptyHeap
      { Method := "GET", URL := some "http://x", Body := none,
        ContentLength := 0, ctxErr := none } "://foo").isOk = true := by
  refine ⟨C4_theorem.1 urlParseModel (fun _ _ => .ok ()) emptyHeap "GET"
      "://foo http://ok" none "missing protocol scheme" (by decide),
    C4_theorem.2.1 urlParseModel (fun _ _ => .ok ()) emptyHeap "GET"
      "http://a http://b" none (by decide) rfl rfl,
    C4_theorem.2.2 emptyHeap _ "://foo" rfl⟩

/-- When the retry policy asks to retry on every attempt, the loop consumes
all its fuel, records one attempt per unit of fuel, finishes on the last
scheduled URL, and gives up with the exhaustion error. -/
theorem doLoop_alwaysRetry (up : String → Except GoError URL)
    (c : ClientModel T L) (o : Oracle) (h : Heap) :
    ∀ (fuel i : Nat) (j : Int) (req : RequestM),
    (∀ n, bodyStepErr h req n = none) →
    SchedulerTotalFrom c req.urls →
    AlwaysRetry c req.ctxErr →
    TransportSane o →
    0 ≤ j →
    (i : Int) + fuel = c.RetryMax + 1 →
    (doLoop up c o h req i j fuel).out =
      .ret none (some (givingUpMsg (doLoop up c o h req i j fuel).req.Method
        (doLoop up c o h req i j fuel).req.URL (c.RetryMax + 1))) ∧
    (doLoop up c o h req i j fuel).req.Method = req.Method ∧
    (doLoop up c o h req i j fuel).trace.length = fuel ∧
    (0 < fuel → ∃ pre a, (doLoop up c o h req i j fuel).trace = pre ++ [a] ∧
      (doLoop up c o h req i j fuel).req.URL = a.url) := by
  intro fuel
  induction fuel with
  | zero =>
    intro i j req hbody hsched hpol htr hj hinv
    exact ⟨rfl, rfl, rfl, fun hf => absurd hf (by simp)⟩
  | succ fuel ih =>
    intro i j req hbody hsched hpol htr hj hinv
    obtain ⟨dest, j', hs, hj'⟩ := hsched j hj
    rcases hT : o.transport i (parseURL up dest) with ⟨r, terr⟩
    obtain ⟨oe, hp⟩ := hpol r terr
    have hnotnil : ¬(terr = none ∧ r = none) := by
      rintro ⟨h1, h2⟩
      have := htr i (parseURL up dest)
      rw [hT] at this
      exact this h1 h2
    have hrem : c.RetryMax - (i : Int) = (fuel : Int) := by
      push_cast at hinv
      omega
    simp only [doLoop, hbody i, hs, hT, hp, hrem]
    rw [if_neg (by simp : ¬(true = false)), if_neg hnotnil]
    cases fuel with
    | zero =>
      rw [if_pos (by norm_num : ((0 : Nat) : Int) = 0)]
      exact ⟨rfl, rfl, rfl, fun _ =>
        ⟨[], ⟨dest, parseURL up dest, r, terr, none⟩, rfl, rfl⟩⟩
    | succ f =>
      rw [if_neg (by push_cast; omega : ¬((((f + 1 : Nat)) : Int) = 0))]
      have ihh := ih (i + 1) j' { req with URL := parseURL up dest }
        (fun n => hbody n) hsched hpol htr hj' (by push_cast at hinv ⊢; omega)
      refine ⟨ihh.1, ihh.2.1, by simp [ihh.2.2.1], fun _ => ?_⟩
      obtain ⟨pre, a, hsp, hu⟩ := ihh.2.2.2 (Nat.succ_pos f)
      exact ⟨⟨dest, parseURL up dest, r, terr,
        some (c.Backoff c.RetryWaitMin c.RetryWaitMax i r)⟩ :: pre, a, by simp [hsp], hu⟩

/-- Claim C2: with `RetryMax = N` and a retry policy that asks to retry on
every attempt, `Do` performs exactly N+1 attempts, returns a nil response,
and returns the exhaustion error built from the request method, the URL of
the last attempt, and the attempt count `RetryMax + 1`; the error text
contains "giving up". -/
theorem C2_theorem (up : String → Except GoError URL) (defT : T)
    (c : ClientModel T L) (o : Oracle) (h : Heap) (req : RequestM) (N : Nat)
    (hN : c.RetryMax = (N : Int))
    (hbody : ∀ n, bodyStepErr h req n = none)
    (hsched : SchedulerTotalFrom c req.urls)
    (hpol : AlwaysRetry c req.ctxErr)
    (htr : TransportSane o) :
    (Do up defT c o h req).1.out =
      .ret none (some (givingUpMsg (Do up defT c o h req).1.req.Method
        (Do up defT c o h req).1.req.URL (c.RetryMax + 1))) ∧
    (Do up defT c o h req).1.req.Method = req.Method ∧
    (Do up defT c o h req).1.trace.length = N + 1 ∧
    (∃ pre a, (Do up defT c o h req).1.trace = pre ++ [a] ∧
      (Do up defT c o h req).1.req.URL = a.url) ∧
    (∀ m u, ∃ x y, givingUpMsg m u (c.RetryMax + 1) = x ++ ("giving up" ++ y)) := by
  have main : ∀ (c' : ClientModel T L),
      c'.RetryMax = c.RetryMax → c'.Scheduler = c.Scheduler →
      c'.CheckForRetry = c.CheckForRetry →
      (doLoop up c' o h req 0 FirstTarget (c'.RetryMax + 1).toNat).out =
        .ret none (some (givingUpMsg
          (doLoop up c' o h req 0 FirstTarget (c'.RetryMax + 1).toNat).req.Method
          (doLoop up c' o h req 0 FirstTarget (c'.RetryMax + 1).toNat).req.URL
          (c'.RetryMax + 1))) ∧
      (doLoop up c' o h req 0 FirstTarget (c'.RetryMax + 1).toNat).req.Method = req.Method ∧
      (doLoop up c' o h req 0 FirstTarget (c'.RetryMax + 1).toNat).trace.length = N + 1 ∧
      (∃ pre a, (doLoop up c' o h req 0 FirstTarget (c'.RetryMax + 1).toNat).trace = pre ++ [a] ∧
        (doLoop up c' o h req 0 FirstTarget (c'.RetryMax + 1).toNat).req.URL = a.url) := by
    intro c' hR hS hP
    have hsched' : SchedulerTotalFrom c' req.urls := by
      unfold SchedulerTotalFrom
      rw [hS]
      exact hsched
    have hpol' : AlwaysRetry c' req.ctxErr := by
      unfold AlwaysRetry
      rw [hP]
      exact hpol
    have hfuel : ((c'.RetryMax + 1).toNat : Int) = c'.RetryMax + 1 := by
      rw [hR, hN]
      omega
    have hpos : 0 < (c'.RetryMax + 1).toNat := by
      rw [hR, hN]
      omega
    obtain ⟨o1, o2, o3, o4⟩ := doLoop_alwaysRetry up c' o h
      ((c'.RetryMax + 1).toNat) 0 FirstTarget req hbody hsched' hpol' htr
      (by norm_num [FirstTarget]) (by rw [hfuel]; norm_num)
    refine ⟨o1, o2, ?_, o4 hpos⟩
    rw [o3, hR, hN]
    omega
  cases hO : c.HTTPClient with
  | none =>
    have hh := main { c with HTTPClient := some defT } rfl rfl rfl
    have hDo : (Do up defT c o h req).1 =
        doLoop up { c with HTTPClient := some defT } o h req 0 FirstTarget
          (({ c with HTTPClient := some defT } : ClientModel T L).RetryMax + 1).toNat := by
      simp [Do, hO]
    rw [hDo]
    exact ⟨hh.1, hh.2.1, hh.2.2.1, hh.2.2.2, fun m u =>
      ⟨m ++ " " ++ urlString u ++ " ",
       " after " ++ toString (c.RetryMax + 1) ++ " attemps", rfl⟩⟩
  | some t =>
    have hh := main c rfl rfl rfl
    have hDo : (Do up defT c o h req).1 =
        doLoop up c o h req 0 FirstTarget (c.RetryMax + 1).toNat := by
      simp [Do, hO]
    rw [hDo]
    exact ⟨hh.1, hh.2.1, hh.2.2.1, hh.2.2.2, fun m u =>
      ⟨m ++ " " ++ urlString u ++ " ",
       " after " ++ toString (c.RetryMax + 1) ++ " attemps", rfl⟩⟩

/-- Witness for C2: a client with RetryMax = 2 whose transport always
returns 500 and whose policy always retries makes exactly 3 attempts and
gives up with a nil response. -/
theorem C2_witness :
    (Do upOK () c2client c2oracle emptyHeap wreq).1.out =
      .ret none (some (givingUpMsg (Do upOK () c2client c2oracle emptyHeap wreq).1.req.Method
        (Do upOK () c2client c2oracle emptyHeap wreq).1.req.URL (c2client.RetryMax + 1))) ∧
    (Do upOK () c2client c2oracle emptyHeap wreq).1.req.Method = wreq.Method ∧
    (Do upOK () c2client c2oracle emptyHeap wreq).1.trace.length = 2 + 1 ∧
    (∃ pre a, (Do upOK () c2client c2oracle emptyHeap wreq).1.trace = pre ++ [a] ∧
      (Do upOK () c2client c2oracle emptyHeap wreq).1.req.URL = a.url) ∧
    (∀ m u, ∃ x y, givingUpMsg m u (c2client.RetryMax + 1) = x ++ ("giving up" ++ y)) :=
  C2_theorem upOK () c2client c2oracle emptyHeap wreq 2 rfl (fun _ => rfl)
    (fun j hj => ⟨"http://a", 1, rfl, by omega⟩)
    (fun r e => ⟨none, rfl⟩)
    (fun i u h2 => by simp [c2oracle])

/-- Claim C3: on any attempt where the retry policy answers
`shouldRetry = false`, the loop returns at once — regardless of the fuel
still available — with that attempt's response, the policy's overriding
error if non-nil and otherwise the transport error; the trace records just
this attempt with no backoff wait. -/
theorem C3_theorem (up : String → Except GoError URL)
    (c : ClientModel T L) (o : Oracle) (h : Heap) (req : RequestM)
    (i : Nat) (j : Int) (fuel : Nat) (dest : String) (j' : Int)
    (r : Option Response) (terr checkErr : Option GoError)
    (hbody : bodyStepErr h req i = none)
    (hsched : c.Scheduler req.urls j = .ok dest j')
    (htrans : o.transport i (parseURL up dest) = (r, terr))
    (hpolicy : c.CheckForRetry req.ctxErr r terr = .ok false checkErr) :
    doLoop up c o h req i j (fuel + 1) =
      ⟨.ret r (match checkErr with | some e => some e | none => terr),
       { req with URL := parseURL up dest },
       [⟨dest, parseURL up dest, r, terr, none⟩],
       transportFailLog req.Method (parseURL up dest) terr⟩ := by
  simp only [doLoop, hbody, hsched, htrans, hpolicy]
  rw [if_pos trivial]
  cases checkErr <;> rfl

/-- Witness for C3: with 4 units of fuel left, a stop decision on the first
attempt ends the loop immediately with the 404 response and a one-entry
trace. -/
theorem C3_witness :
    doLoop upOK c3client c3oracle emptyHeap wreq 0 0 (3 + 1) =
      ⟨.ret (some ⟨404⟩) none,
       { wreq with URL := parseURL upOK "http://a" },
       [⟨"http://a", parseURL upOK "http://a", some ⟨404⟩, none, none⟩],
       transportFailLog wreq.Method (parseURL upOK "http://a") none⟩ :=
  C3_theorem upOK c3client c3oracle emptyHeap wreq 0 0 3 "http://a" 1
    (some ⟨404⟩) none none rfl rfl rfl rfl

/-- Claim C6 as stated is false on the code: when the scheduled target
"://bad" fails to parse, every attempt is made with a nil URL — never with
the stale previous URL `http://old` — because `req.URL = parseURL(dest)`
overwrites the field with the discarded-error (nil) parse result.  The run
still does not crash. -/
theorem C6_counterexample :
    ((Do urlParseModel () c6client c6oracle emptyHeap c6req).1.trace.map
      AttemptRec.url) = [none, none] ∧
    (some "http://old" : Option URL) ∉
      ((Do urlParseModel () c6client c6oracle emptyHeap c6req).1.trace.map
        AttemptRec.url) ∧
    (Do urlParseModel () c6client c6oracle emptyHeap c6req).1.out ≠ .panic := by
  refine ⟨by decide, by decide, by decide⟩

/-- Claim C6 (amended): when the scheduler's selection fails to parse on an
attempt with retry budget left, the parse failure itself is not logged and
does not abort or crash the attempt; the request is attempted with a nil
URL (not the stale previous URL), the transport's resulting failure is
logged as an ERROR, and — the policy asking to retry — the loop continues
normally with the next attempt. -/
theorem C6_theorem (up : String → Except GoError URL)
    (c : ClientModel T L) (o : Oracle) (h : Heap) (req : RequestM)
    (i : Nat) (j : Int) (fuel : Nat) (dest : String) (j' : Int)
    (e : GoError) (oe : Option GoError)
    (hbody : bodyStepErr h req i = none)
    (hsched : c.Scheduler req.urls j = .ok dest j')
    (hparse : parseURL up dest = none)
    (htrans : o.transport i none = (none, some e))
    (hpolicy : c.CheckForRetry req.ctxErr none (some e) = .ok true oe)
    (hremain : ¬(c.RetryMax - (i : Int) = 0)) :
    (doLoop up c o h req i j (fuel + 1)).out =
      (doLoop up c o h { req with URL := none } (i + 1) j' fuel).out ∧
    (doLoop up c o h req i j (fuel + 1)).req =
      (doLoop up c o h { req with URL := none } (i + 1) j' fuel).req ∧
    (doLoop up c o h req i j (fuel + 1)).trace =
      ⟨dest, none, none, some e, some (c.Backoff c.RetryWaitMin c.RetryWaitMax i none)⟩ ::
        (doLoop up c o h { req with URL := none } (i + 1) j' fuel).trace ∧
    (⟨"ERROR", req.Method ++ " " ++ urlString none ++ " request failed: ", some e⟩ : LogCall) ∈
      (doLoop up c o h req i j (fuel + 1)).log := by
  simp only [doLoop, hbody, hsched, hparse, htrans, hpolicy]
  rw [if_neg (by simp : ¬((some e : Option GoError) = none ∧ True)),
    if_neg hremain]
  refine ⟨rfl, rfl, rfl, ?_⟩
  simp [transportFailLog]

/-- Witness for C6: one concrete step with budget left — target "://bad",
nil parse, transport failure logged, loop continuing. -/
theorem C6_witness :
    (doLoop urlParseModel c6client c6oracle emptyHeap c6req 0 0 (0 + 1)).out =
      (doLoop urlParseModel c6client c6oracle emptyHeap
        { c6req with URL := none } (0 + 1) 1 0).out ∧
    (doLoop urlParseModel c6client c6oracle emptyHeap c6req 0 0 (0 + 1)).req =
      (doLoop urlParseModel c6client c6oracle emptyHeap
        { c6req with URL := none } (0 + 1) 1 0).req ∧
    (doLoop urlParseModel c6client c6oracle emptyHeap c6req 0 0 (0 + 1)).trace =
      ⟨"://bad", none, none, some "http: nil Request.URL",
        some (c6client.Backoff c6client.RetryWaitMin c6client.RetryWaitMax 0 none)⟩ ::
        (doLoop urlParseModel c6client c6oracle emptyHeap
          { c6req with URL := none } (0 + 1) 1 0).trace ∧
    (⟨"ERROR", c6req.Method ++ " " ++ urlString none ++ " request failed: ",
      some "http: nil Request.URL"⟩ : LogCall) ∈
      (doLoop urlParseModel c6client c6oracle emptyHeap c6req 0 0 (0 + 1)).log :=
  C6_theorem urlParseModel c6client c6oracle emptyHeap c6req 0 0 0 "://bad" 1
    "http: nil Request.URL" (some "http: nil Request.URL")
    rfl (by decide) (by decide) rfl rfl (by decide)

/-- Claim C8 (amended): for every non-empty target list and every
non-negative cursor, `DefaultScheduler` returns the element at the cursor
(wrapped to 0 when the cursor is at least the list length) and the wrapped
cursor plus one; and threading the cursor through `Do` for five attempts on
"http://A http://B http://C" selects A, B, C, A, B. -/
theorem C8_theorem :
    (∀ (servers : List String) (j : Int), servers ≠ [] → 0 ≤ j →
      DefaultScheduler servers j =
        .ok (servers.getD (if (servers.length : Int) ≤ j then 0 else j).toNat "")
          ((if (servers.length : Int) ≤ j then 0 else j) + 1)) ∧
    ((Do urlParseModel () c8client c8oracle emptyHeap c8req).1.trace.map
      AttemptRec.dest) = ["http://A", "http://B", "http://C", "http://A", "http://B"] := by
  constructor
  · intro servers j hne hj
    unfold DefaultScheduler
    have hlenpos : 0 < servers.length := List.length_pos.mpr hne
    by_cases hwrap : (servers.length : Int) ≤ j
    · simp only [if_pos hwrap]
      have hcond : (0 : Int) ≤ 0 ∧ (0 : Int).toNat < servers.length := by
        constructor
        · omega
        · simpa using hlenpos
      rw [dif_pos hcond, List.getD_eq_get servers "" hcond.2]
    · simp only [if_neg hwrap]
      have hcond : (0 : Int) ≤ j ∧ j.toNat < servers.length := by
        constructor
        · exact hj
        · omega
      rw [dif_pos hcond, List.getD_eq_get servers "" hcond.2]
  · decide

/-- Witness for C8 at a concrete input: on the one-element list with cursor
0 the scheduler selects that element and advances the cursor. -/
theorem C8_witness :
    DefaultScheduler ["http://x"] 0 = .ok "http://x" 1 :=
  (C8_theorem.1 ["http://x"] 0 (by simp) (by omega)).trans (by decide)

/-- Claim C9 as stated is false on the code: `Do` does populate a default —
entering with a nil `HTTPClient`, the field is `some 7` (the default pooled
client passed as `defT`) when `Do` returns, so the configuration is not
unchanged. -/
theorem C9_counterexample :
    c9client.HTTPClient = none ∧
    (Do upOK 7 c9client c9oracle emptyHeap wreq).2.HTTPClient = some 7 ∧
    (some 7 : Option Nat) ≠ none := by
  refine ⟨rfl, rfl, by decide⟩

/-- Claim C9 (amended): during `Do` every configuration field other than
`HTTPClient` is read-only — `RetryWaitMin`, `RetryWaitMax`, `RetryMax`,
`CheckForRetry`, `Backoff`, `Scheduler` and `Logger` are unchanged on
return; the whole configuration is unchanged exactly when `HTTPClient` was
non-nil at entry, and a nil `HTTPClient` is populated with the default
pooled client (the only default `Do` populates). -/
theorem C9_theorem (up : String → Except GoError URL) (defT : T)
    (c : ClientModel T L) (o : Oracle) (h : Heap) (req : RequestM) :
    (Do up defT c o h req).2.RetryWaitMin = c.RetryWaitMin ∧
    (Do up defT c o h req).2.RetryWaitMax = c.RetryWaitMax ∧
    (Do up defT c o h req).2.RetryMax = c.RetryMax ∧
    (Do up defT c o h req).2.CheckForRetry = c.CheckForRetry ∧
    (Do up defT c o h req).2.Backoff = c.Backoff ∧
    (Do up defT c o h req).2.Scheduler = c.Scheduler ∧
    (Do up defT c o h req).2.Logger = c.Logger ∧
    (∀ t, c.HTTPClient = some t → (Do up defT c o h req).2 = c) ∧
    (c.HTTPClient = none → (Do up defT c o h req).2.HTTPClient = some defT) := by
  cases hO : c.HTTPClient with
  | none => simp [Do, hO]
  | some t => simp [Do, hO]

/-- Witness for C9: with a non-nil HTTPClient the configuration is returned
fully unchanged. -/
theorem C9_witness :
    (Do upOK 7 c9bclient c9oracle emptyHeap wreq).2 = c9bclient :=
  (C9_theorem upOK 7 c9bclient c9oracle emptyHeap wreq).2.2.2.2.2.2.2.1 3 rfl

end Retrigo
